import Mathlib

/-!
Verification of the collision-dash-app filtering core.

The development shallowly embeds the decision logic of `src/app.py`
(vehicle-category normalization, free-text search interpretation, facet
filter composition, map sampling) and the year detection of
`src/app2.py`, and proves or refutes the specification's claims about
them.  Python strings are Lean strings; pandas NaN / absent values are
`Option.none`; a pandas DataFrame is a `Dataset` (a list of present
columns plus a list of rows).
-/

namespace CollisionDash

/-- Boolean test that the first list is a leading segment of the second
(helper for Python's substring operator). -/
def leadsList : List Char → List Char → Bool
  | [], _ => true
  | _ :: _, [] => false
  | a :: as, b :: bs => a == b && leadsList as bs

/-- Boolean test that `needle` occurs as a contiguous segment of the
second list. -/
def hasSegment (needle : List Char) : List Char → Bool
  | [] => needle.isEmpty
  | c :: t => leadsList needle (c :: t) || hasSegment needle t

/-- Python's `sub in s` on strings: substring containment. -/
def pyIn (sub s : String) : Bool :=
  hasSegment sub.data s.data

/-- Python's `s.startswith(pre)`. -/
def pyStartsWith (pre s : String) : Bool :=
  leadsList pre.data s.data

/-- ASCII uppercase of one character (Python's `str.upper` restricted to
ASCII, which covers every keyword the program compares against). -/
def upChar (c : Char) : Char :=
  if 'a' ≤ c ∧ c ≤ 'z' then Char.ofNat (c.toNat - 32) else c

/-- Python's `s.upper()` (ASCII). -/
def pyUpper (s : String) : String :=
  ⟨s.data.map upChar⟩

/-- ASCII lowercase of one character. -/
def downChar (c : Char) : Char :=
  if 'A' ≤ c ∧ c ≤ 'Z' then Char.ofNat (c.toNat + 32) else c

/-- Python's `s.lower()` (ASCII). -/
def pyLower (s : String) : String :=
  ⟨s.data.map downChar⟩

/-- Embedding of `normalize_vehicle` from src/app.py.  `none` models a pandas NaN
(absent) raw value; the `try/except` wrapper is unreachable for string
inputs and is not modelled. -/
def normalize_vehicle : Option String → String
  | none => "UNKNOWN"
  | some v =>
    let s := pyUpper v
    if pyIn "AMB" s || pyIn "AMBUL" s then "AMBULANCE"
    else if pyIn "TAXI" s then "TAXI"
    else if pyIn "BUS" s then "BUS"
    else if pyIn "MOTORCYCLE" s || pyIn "SCOOTER" s || pyIn "MOTORBIKE" s then "MOTORCYCLE"
    else if pyIn "BICYCLE" s || pyIn "BIKE" s then "BICYCLE"
    else if pyIn "SUV" s || pyIn "STATION WAGON" s then "SUV"
    else if pyIn "PICK" s || pyIn "PICK-UP" s || pyIn "PICKUP" s then "TRUCK/VAN"
    else if pyIn "TRUCK" s || pyIn "VAN" s then "TRUCK/VAN"
    else if pyIn "SEDAN" s || pyIn "4 DOOR" s || pyIn "4-DOOR" s
            || pyIn "2 DOOR" s || pyIn "2-DOOR" s then "CAR"
    else "OTHER"

/-- The ordered keyword rules of `normalize_vehicle`, made explicit as a
(keywords, category) list so that first-match-wins can be stated. -/
def vehicleRules : List (List String × String) :=
  [ (["AMB", "AMBUL"], "AMBULANCE"),
    (["TAXI"], "TAXI"),
    (["BUS"], "BUS"),
    (["MOTORCYCLE", "SCOOTER", "MOTORBIKE"], "MOTORCYCLE"),
    (["BICYCLE", "BIKE"], "BICYCLE"),
    (["SUV", "STATION WAGON"], "SUV"),
    (["PICK", "PICK-UP", "PICKUP"], "TRUCK/VAN"),
    (["TRUCK", "VAN"], "TRUCK/VAN"),
    (["SEDAN", "4 DOOR", "4-DOOR", "2 DOOR", "2-DOOR"], "CAR") ]

/-- First-match-wins evaluation of an ordered rule list over an
uppercased string, defaulting to OTHER. -/
def firstMatch (s : String) : List (List String × String) → String
  | [] => "OTHER"
  | (kws, cat) :: rest =>
    if kws.any (fun k => pyIn k s) then cat else firstMatch s rest

/-- A cell value of the dataset: a string or an integer (the only value
types the filtering logic compares). -/
inductive Val where
  | str (s : String)
  | int (n : Int)
deriving DecidableEq

/-- The columns the filtering core reads.  `vehicleTypeCode` is the raw
VEHICLE TYPE CODE 1 column (filtered on by src/app2.py);
`vehicleCategory` is the derived VEHICLE_CATEGORY column;
`contributingFactor` is CONTRIBUTING FACTOR VEHICLE 1. -/
inductive Col where
  | borough
  | year
  | vehicleTypeCode
  | vehicleCategory
  | contributingFactor
  | injuryType
  | latitude
  | longitude
deriving DecidableEq

/-- One row of the dataset; `none` in a field is a pandas NaN. -/
structure Row where
  borough : Option Val
  year : Option Val
  vehicleTypeCode : Option Val
  vehicleCategory : Option Val
  contributingFactor : Option Val
  injuryType : Option Val
  latitude : Option Val
  longitude : Option Val
deriving DecidableEq

/-- Column access on a row. -/
def Row.get (r : Row) : Col → Option Val
  | .borough => r.borough
  | .year => r.year
  | .vehicleTypeCode => r.vehicleTypeCode
  | .vehicleCategory => r.vehicleCategory
  | .contributingFactor => r.contributingFactor
  | .injuryType => r.injuryType
  | .latitude => r.latitude
  | .longitude => r.longitude

/-- A pandas DataFrame, as the filtering logic sees it: the set of
columns actually present in the frame, and the rows.  A predicate's
column can be absent from `cols`, which is what the code's
`column in dff.columns` guards test. -/
structure Dataset where
  cols : List Col
  rows : List Row
deriving DecidableEq

/-- Python whitespace characters used by `str.split()`. -/
def isPyWs (c : Char) : Bool :=
  c == ' ' || c == '\t' || c == '\n' || c == '\r' || c == '\x0b' || c == '\x0c'

/-- Helper for `pySplit`: accumulates the current word (reversed). -/
def pySplitAux : List Char → List Char → List String
  | acc, [] => if acc.isEmpty then [] else [⟨acc.reverse⟩]
  | acc, c :: t =>
    if isPyWs c then
      if acc.isEmpty then pySplitAux [] t
      else (⟨acc.reverse⟩ : String) :: pySplitAux [] t
    else pySplitAux (c :: acc) t

/-- Python's `s.split()`: split on runs of whitespace, no empty tokens. -/
def pySplit (s : String) : List String :=
  pySplitAux [] s.data

/-- Python's `token.isdigit()` (ASCII digits; the tokens the program
feeds to `int(...)`). -/
def pyIsDigit (s : String) : Bool :=
  !s.data.isEmpty && s.data.all (fun c => '0' ≤ c && c ≤ '9')

/-- Python's `int(token)` on a digit string. -/
def strToInt (s : String) : Int :=
  s.data.foldl (fun n c => 10 * n + ((c.toNat : Int) - 48)) 0

/-- The `BOROUGHS` constant of src/app.py. -/
def BOROUGHS : List String :=
  ["BRONX", "BROOKLYN", "MANHATTAN", "QUEENS", "STATEN ISLAND"]

/-- Borough extraction of `apply_search_text` (src/app.py):
`next((b for b in BOROUGHS if b in text_u), None)` applied to the
uppercased text. -/
def boroughFromText (text : String) : Option String :=
  BOROUGHS.find? (fun b => pyIn b (pyUpper text))

/-- Year extraction loop of `apply_search_text` (src/app.py): scan the
whitespace tokens, and break at the first all-digit 4-character token
whose value is within 2012..2030; tokens failing the range check do not
stop the scan. -/
def yearFromTokens : List String → Option Int
  | [] => none
  | t :: rest =>
    if pyIsDigit t && t.length == 4 then
      let y := strToInt t
      if 2012 ≤ y ∧ y ≤ 2030 then some y else yearFromTokens rest
    else yearFromTokens rest

/-- Year extraction of `apply_search_text` on the raw text. -/
def yearFromText (text : String) : Option Int :=
  yearFromTokens (pySplit (pyUpper text))

/-- Injury-type extraction of `apply_search_text` (src/app.py). -/
def injuryFromText (text : String) : Option String :=
  let u := pyUpper text
  if pyIn "PEDESTRIAN" u then some "PEDESTRIAN"
  else if pyIn "CYCLIST" u || pyIn "BICYCLE" u then some "CYCLIST"
  else if pyIn "MOTORIST" u || pyIn "DRIVER" u then some "MOTORIST"
  else none

/-- Result 4-tuple of `apply_search_text`. -/
structure SearchResult where
  out : Dataset
  borough : Option String
  year : Option Int
  injury : Option String
deriving DecidableEq

/-- Embedding of `apply_search_text` from src/app.py.  A `None` search box value and
the empty string are both falsy in `if not text`, so the text is a plain
string here and emptiness is `text = ""`; `df_in.empty` is
`rows = []`.  The extracted borough/year/injury values are never falsy
strings or 0, so Python's truthiness tests on them are `Option.isSome`. -/
def apply_search_text (d : Dataset) (text : String) : SearchResult :=
  if text = "" ∨ d.rows = [] then ⟨d, none, none, none⟩
  else
    let b := boroughFromText text
    let y := yearFromText text
    let inj := injuryFromText text
    let rows1 :=
      match b with
      | some bv =>
        if Col.borough ∈ d.cols then
          d.rows.filter (fun r => r.get .borough == some (.str bv))
        else d.rows
      | none => d.rows
    let rows2 :=
      match y with
      | some yv =>
        if Col.year ∈ d.cols then
          rows1.filter (fun r => r.get .year == some (.int yv))
        else rows1
      | none => rows1
    let rows3 :=
      match inj with
      | some iv =>
        if Col.injuryType ∈ d.cols then
          rows2.filter (fun r => r.get .injuryType == some (.str iv))
        else rows2
      | none => rows2
    ⟨⟨d.cols, rows3⟩, b, y, inj⟩

/-- The per-facet membership predicate of `update_report`
(src/app.py): `dff[column].isin(values)`; a NaN cell is never in the
selection. -/
def facetPred (c : Col) (values : List Val) (r : Row) : Bool :=
  match r.get c with
  | some x => decide (x ∈ values)
  | none => false

/-- One step of the `filter_operations` loop of `update_report`
(src/app.py): the filter applies only `if values and column in
dff.columns` (an unselected dropdown is `None` or `[]`, both modelled
as `[]`). -/
def applyFacet (d : Dataset) (c : Col) (values : List Val) : Dataset :=
  if values ≠ [] ∧ c ∈ d.cols then
    ⟨d.cols, d.rows.filter (facetPred c values)⟩
  else d

/-- The five dropdown selections of `update_report`, in the order of
`filter_operations`; an unselected dropdown is the empty list. -/
structure Criteria where
  boroughs : List Val
  years : List Val
  vehicles : List Val
  factors : List Val
  injuries : List Val
deriving DecidableEq

/-- The full `filter_operations` loop of `update_report` (src/app.py):
the five facet filters applied in their fixed order. -/
def update_filters (d : Dataset) (crit : Criteria) : Dataset :=
  applyFacet
    (applyFacet
      (applyFacet
        (applyFacet
          (applyFacet d .borough crit.boroughs)
          .year crit.years)
        .vehicleCategory crit.vehicles)
      .contributingFactor crit.factors)
    .injuryType crit.injuries

/-- The filtering pipeline of `update_report` (src/app.py): dropdown
facets, then `apply_search_text`, yielding the frame the charts are
built from. -/
def update_report_filter (d : Dataset) (crit : Criteria) (text : String) : Dataset :=
  (apply_search_text (update_filters d crit) text).out

/-- Token test of the year-detection loop in `parse_search_query`
(src/app2.py): `word.isdigit() and word.startswith('20') and
len(word) == 4`. -/
def year2Tok (w : String) : Bool :=
  pyIsDigit w && pyStartsWith "20" w && w.length == 4

/-- Year detection of `parse_search_query` (src/app2.py): the query is
lowercased; an empty query returns early; otherwise every matching
token overwrites the session's `filter_year`, so the last match wins
and `prev` (the prior session value) survives when nothing matches. -/
def parse_query_year (prev : Option Int) (searchInput : String) : Option Int :=
  let query := pyLower searchInput
  if query = "" then prev
  else
    (pySplit query).foldl
      (fun acc w => if year2Tok w then some (strToInt w) else acc) prev

/-- Linear congruential step driving the modelled sampler. -/
def lcg (s : Nat) : Nat :=
  (1103515245 * s + 12345) % 2147483648

/-- Seeded selection of `n` elements without replacement: repeatedly
remove the element at a pseudo-random index.  Deterministic in
(seed, n, input). -/
def seededSample {α : Type} : Nat → Nat → List α → List α
  | _, 0, _ => []
  | _, _ + 1, [] => []
  | seed, n + 1, a :: t =>
    let i := lcg seed % (a :: t).length
    (a :: t).get ⟨i, Nat.mod_lt _ (Nat.succ_pos _)⟩ ::
      seededSample (lcg seed) n ((a :: t).eraseIdx i)

/-- Modelled from the spec: pandas `DataFrame.sample(n,
random_state=seed)`, whose exact permutation algorithm is library code
outside this repository.  The spec requires only a reproducible
bounded-size random sample with a fixed seed, deterministic given the
same input and seed, drawn from the given rows without replacement;
`seededSample` realises exactly that. -/
def pandasSample (rows : List Row) (n : Nat) (seed : Nat) : List Row :=
  seededSample seed n rows

/-- Embedding of `create_map` from src/app.py, up to the chart cosmetics: the
guards returning an empty figure become `none`; otherwise rows with a
NaN latitude or longitude are dropped and
`map_df.sample(min(5000, len(map_df)), random_state=42)` is taken. -/
def create_map_sample (d : Dataset) : Option (List Row) :=
  if d.rows = [] ∨ Col.latitude ∉ d.cols ∨ Col.longitude ∉ d.cols then none
  else
    let mapRows := d.rows.filter
      (fun r => (r.get .latitude).isSome && (r.get .longitude).isSome)
    if mapRows = [] then none
    else some (pandasSample mapRows (min 5000 mapRows.length) 42)

/-- Claim-side year-detection rule, following C4's words: the first
whitespace token that is all digits, has exactly four characters, and
parses to a value within 2012..2030. -/
def specYearOf (text : String) : Option Int :=
  ((pySplit (pyUpper text)).find?
    (fun t => pyIsDigit t && t.length == 4
      && decide (2012 ≤ strToInt t ∧ strToInt t ≤ 2030))).map strToInt

/-- Claim-side free-text record predicate, following C5's words: the
record's borough, vehicle category, contributing factor, or injury
type, compared case-insensitively, contains the query string as a
substring (OR across the four fields). -/
def specTextMatch (r : Row) (q : String) : Bool :=
  [Col.borough, Col.vehicleCategory, Col.contributingFactor, Col.injuryType].any
    (fun c =>
      match r.get c with
      | some (.str s) => pyIn (pyUpper q) (pyUpper s)
      | _ => false)

/-- Clears the facet selection that reads the given column (identity
for the coordinate columns, which no facet reads). -/
def clearFacet (crit : Criteria) : Col → Criteria
  | .borough => { crit with boroughs := [] }
  | .year => { crit with years := [] }
  | .vehicleTypeCode => crit
  | .vehicleCategory => { crit with vehicles := [] }
  | .contributingFactor => { crit with factors := [] }
  | .injuryType => { crit with injuries := [] }
  | .latitude => crit
  | .longitude => crit

/-- One column selection of src/app2.py, modelling pandas column
access: `rows[col]` raises a KeyError when the column is absent from
the frame, and `filtered_df` has no guard or handler for that — the
raise is `none`. -/
def colFilter (d : Dataset) (rows : List Row) (c : Col) (p : Row → Bool) :
    Option (List Row) :=
  if c ∈ d.cols then some (rows.filter p) else none

/-- Embedding of the sidebar filter block of src/app2.py
(`filtered_df`, the four successive selections): `sel_borough = "All"`
disables the borough filter, the year filter is applied
unconditionally, and empty multiselects disable the vehicle-type and
contributing-factor filters.  Unlike `update_report` in src/app.py,
this code path has no `column in df.columns` guards and no
`try/except`, so a missing column raises instead of being skipped. -/
def filtered_df2 (d : Dataset) (sel_borough : String) (sel_year : Int)
    (sel_vehicle sel_factor : List Val) : Option Dataset :=
  let s1 : Option (List Row) :=
    if sel_borough ≠ "All" then
      colFilter d d.rows .borough (fun r => r.get .borough == some (.str sel_borough))
    else some d.rows
  let s2 : Option (List Row) :=
    s1.bind (fun rows =>
      colFilter d rows .year (fun r => r.get .year == some (.int sel_year)))
  let s3 : Option (List Row) :=
    s2.bind (fun rows =>
      if sel_vehicle ≠ [] then
        colFilter d rows .vehicleTypeCode (facetPred .vehicleTypeCode sel_vehicle)
      else some rows)
  let s4 : Option (List Row) :=
    s3.bind (fun rows =>
      if sel_factor ≠ [] then
        colFilter d rows .contributingFactor (facetPred .contributingFactor sel_factor)
      else some rows)
  s4.map (fun rows => ⟨d.cols, rows⟩)

/-- Fixture row: a Queens bus record from 2020. -/
def rowA : Row :=
  ⟨some (.str "QUEENS"), some (.int 2020), some (.str "BUS"), some (.str "BUS"),
   some (.str "SPEEDING"), some (.str "MOTORIST"),
   some (.str "40.7"), some (.str "-73.9")⟩

/-- Fixture row: a Brooklyn pedestrian record from 2018, without
coordinates. -/
def rowB : Row :=
  ⟨some (.str "BROOKLYN"), some (.int 2018), some (.str "TAXI"), some (.str "TAXI"),
   some (.str "GLARE"), some (.str "PEDESTRIAN"), none, none⟩

/-- Fixture dataset with every column present. -/
def dsAB : Dataset :=
  ⟨[.borough, .year, .vehicleTypeCode, .vehicleCategory, .contributingFactor,
    .injuryType, .latitude, .longitude], [rowA, rowB]⟩

/-- Fixture dataset missing the year column. -/
def dsNoYear : Dataset :=
  ⟨[.borough, .vehicleCategory, .contributingFactor, .injuryType], [rowA, rowB]⟩

/-- The empty facet selection. -/
def noCriteria : Criteria := ⟨[], [], [], [], []⟩

example : normalize_vehicle none = "UNKNOWN" := by decide
example : normalize_vehicle (some "") = "OTHER" := by decide
example : normalize_vehicle (some "SEDAN") = "CAR" := by decide
example : normalize_vehicle (some "CAR") = "OTHER" := by decide
example : normalize_vehicle (some "BUS STATION WAGON") = "BUS" := by decide
example : normalize_vehicle (some "AMBULANCE VAN") = "AMBULANCE" := by decide

example : (apply_search_text dsAB "year 1999 in the bronx").year = none := by decide
example : (apply_search_text dsAB "year 1999 in the bronx").borough = some "BRONX" := by decide
example : (apply_search_text dsAB "taxi").out.rows = [rowA, rowB] := by decide
example : dsAB.rows.filter (fun r => specTextMatch r "taxi") = [rowB] := by decide
example : parse_query_year none "2010" = some 2010 := by decide
example : specYearOf "2010" = none := by decide
example : (apply_search_text dsAB "Queens 2020 pedestrian crashes").out.rows = [] := by decide
example : (apply_search_text dsAB "brooklyn pedestrian").out.rows = [rowB] := by decide
example : create_map_sample dsAB = some [rowA] := by decide
example : update_filters dsNoYear ⟨[], [Val.int 2020], [], [], []⟩ = dsNoYear := by decide
example : update_report_filter dsAB noCriteria "" = dsAB := by decide

/-- Every result of `normalize_vehicle` on a present string is one of
the nine string categories. -/
theorem normalize_vehicle_mem (s : String) :
    normalize_vehicle (some s) ∈
      ["AMBULANCE", "TAXI", "BUS", "MOTORCYCLE", "BICYCLE", "SUV",
       "TRUCK/VAN", "CAR", "OTHER"] := by
  simp only [normalize_vehicle]
  repeat' split
  all_goals decide

/-- C1: the claim states that the empty string normalizes to UNKNOWN;
in the code `pd.isna("")` is false and no keyword rule matches the
empty string, so `normalize_vehicle("")` is OTHER. -/
theorem c1_counterexample : ¬ normalize_vehicle (some "") = "UNKNOWN" := by
  decide

/-- C1 (amended): an absent raw vehicle type normalizes to UNKNOWN, and
every string matched by none of the keyword rules, the empty string
included, normalizes to OTHER. -/
theorem c1_amended :
    normalize_vehicle none = "UNKNOWN"
    ∧ ∀ s : String,
        (vehicleRules.all (fun rule => rule.1.all (fun k => !pyIn k (pyUpper s)))) = true →
        normalize_vehicle (some s) = "OTHER" := by
  refine ⟨rfl, ?_⟩
  intro s h
  simp only [vehicleRules, List.all_cons, List.all_nil, Bool.and_eq_true,
    Bool.not_eq_true', and_true] at h
  simp only [normalize_vehicle]
  simp [h.1, h.2.1, h.2.2.1, h.2.2.2.1, h.2.2.2.2.1, h.2.2.2.2.2.1,
    h.2.2.2.2.2.2.1, h.2.2.2.2.2.2.2.1, h.2.2.2.2.2.2.2.2]

/-- Witness for `c1_amended` at the concrete non-matching string
HORSE. -/
theorem c1_witness :
    (vehicleRules.all (fun rule => rule.1.all (fun k => !pyIn k (pyUpper "HORSE")))) = true
    ∧ normalize_vehicle (some "HORSE") = "OTHER" :=
  ⟨by decide, c1_amended.2 "HORSE" (by decide)⟩

/-- C2: the claim states idempotence for every input string; it fails
on SEDAN, whose normalization CAR matches no keyword rule and
re-normalizes to OTHER. -/
theorem c2_counterexample :
    ¬ normalize_vehicle (some (normalize_vehicle (some "SEDAN")))
        = normalize_vehicle (some "SEDAN") := by
  decide

/-- C2 (amended): `normalize_vehicle` is deterministic (a pure
function: equal inputs give equal results), and re-applying it fixes
the result except when the result is CAR, the one category string that
matches none of the keyword rules. -/
theorem c2_amended :
    (∀ v w : Option String, v = w → normalize_vehicle v = normalize_vehicle w)
    ∧ ∀ s : String, normalize_vehicle (some s) ≠ "CAR" →
        normalize_vehicle (some (normalize_vehicle (some s)))
          = normalize_vehicle (some s) := by
  refine ⟨fun v w h => by rw [h], ?_⟩
  intro s h
  have hm := normalize_vehicle_mem s
  simp only [List.mem_cons, List.not_mem_nil, or_false] at hm
  rcases hm with h1 | h1 | h1 | h1 | h1 | h1 | h1 | h1 | h1
  · rw [h1]; decide
  · rw [h1]; decide
  · rw [h1]; decide
  · rw [h1]; decide
  · rw [h1]; decide
  · rw [h1]; decide
  · rw [h1]; decide
  · exact absurd h1 h
  · rw [h1]; decide

/-- Witness for `c2_amended` at the concrete string TAXI CAB, whose
normalization TAXI is a fixed point. -/
theorem c2_witness :
    normalize_vehicle (some "TAXI CAB") ≠ "CAR"
    ∧ normalize_vehicle (some (normalize_vehicle (some "TAXI CAB")))
        = normalize_vehicle (some "TAXI CAB") :=
  ⟨by decide, c2_amended.2 "TAXI CAB" (by decide)⟩

/-- C3: any string containing AMB normalizes to AMBULANCE regardless of
later keywords; `normalize_vehicle` equals first-match-wins evaluation
of the ordered rule list; and the string BUS STATION WAGON, which
contains both BUS and STATION, classifies as BUS because the BUS rule
precedes the SUV rule. -/
theorem c3_thm :
    (∀ v : String, pyIn "AMB" (pyUpper v) = true →
       normalize_vehicle (some v) = "AMBULANCE")
    ∧ (∀ v : String, normalize_vehicle (some v) = firstMatch (pyUpper v) vehicleRules)
    ∧ normalize_vehicle (some "BUS STATION WAGON") = "BUS" := by
  refine ⟨?_, ?_, by decide⟩
  · intro v h
    simp [normalize_vehicle, h]
  · intro v
    simp [normalize_vehicle, firstMatch, vehicleRules, Bool.or_assoc]

/-- Witness for `c3_thm` at the concrete string AMBULANCE VAN, which
contains both AMB and VAN. -/
theorem c3_witness :
    pyIn "AMB" (pyUpper "AMBULANCE VAN") = true
    ∧ normalize_vehicle (some "AMBULANCE VAN") = "AMBULANCE" :=
  ⟨by decide, c3_thm.1 "AMBULANCE VAN" (by decide)⟩

/-- The year-scan loop of src/app.py computes the first token
satisfying all three conditions (digits, length four, in range); a
4-digit token failing only the range check does not stop the scan. -/
theorem yearFromTokens_eq_find (ts : List String) :
    yearFromTokens ts =
      (ts.find? (fun t => pyIsDigit t && t.length == 4
        && decide (2012 ≤ strToInt t ∧ strToInt t ≤ 2030))).map strToInt := by
  induction ts with
  | nil => rfl
  | cons t rest ih =>
    simp only [yearFromTokens, List.find?_cons]
    cases h1 : (pyIsDigit t && t.length == 4) with
    | false => simp [h1, ih]
    | true =>
      by_cases h2 : 2012 ≤ strToInt t ∧ strToInt t ≤ 2030
      · simp [h1, h2]
      · simp [h1, h2, ih]

/-- A left fold that overwrites the accumulator at every matching
element returns the last match, keeping the initial accumulator when
nothing matches. -/
theorem foldl_lastMatch {α β : Type} (p : α → Bool) (g : α → β) (l : List α)
    (acc : Option β) :
    l.foldl (fun acc w => if p w then some (g w) else acc) acc =
      (l.reverse.find? p).elim acc (fun w => some (g w)) := by
  induction l generalizing acc with
  | nil => rfl
  | cons w t ih =>
    simp only [List.foldl_cons, ih, List.reverse_cons, List.find?_append]
    cases hf : t.reverse.find? p with
    | some v => simp
    | none =>
      cases hp : p w <;> simp [List.find?, hp]

/-- C4 (amended): in `apply_search_text` (src/app.py) the detected year
is exactly the claim's rule — the first whitespace token that is all
digits, four characters long, and within 2012..2030, empty when no
token qualifies — and on "year 1999 in the bronx" the year is empty
and the borough BRONX; but in `parse_search_query` (src/app2.py) the
year filter is instead set by the last token that is all digits, four
characters long, and starts with "20", with no 2012..2030 range check
and no stop at the first match. -/
theorem c4_amended :
    (∀ text : String, yearFromText text = specYearOf text)
    ∧ ((apply_search_text dsAB "year 1999 in the bronx").year = none
       ∧ (apply_search_text dsAB "year 1999 in the bronx").borough = some "BRONX")
    ∧ (∀ (prev : Option Int) (q : String),
         parse_query_year prev q =
           if pyLower q = "" then prev
           else
             ((pySplit (pyLower q)).reverse.find? year2Tok).elim prev
               (fun w => some (strToInt w))) := by
  refine ⟨?_, ⟨by decide, by decide⟩, ?_⟩
  · intro text
    exact yearFromTokens_eq_find (pySplit (pyUpper text))
  · intro prev q
    simp only [parse_query_year]
    split
    · rfl
    · exact foldl_lastMatch year2Tok strToInt (pySplit (pyLower q)) prev

/-- C4: the claim's year rule (first 4-digit token within 2012..2030,
else empty) fails on the cited year detection of `parse_search_query`
(src/app2.py): on the input "2010" the claim requires an empty year
(2010 is out of range), but the code sets the year filter to 2010. -/
theorem c4_counterexample :
    parse_query_year none "2010" = some 2010 ∧ specYearOf "2010" = none := by
  exact ⟨by decide, by decide⟩

/-- C5: the claim states that a free-text query keeps exactly the
records one of whose four text fields contains the query as a
case-insensitive substring; on the query "taxi" over `dsAB` the code's
`apply_search_text` extracts nothing and keeps both rows, while the
claimed predicate keeps only the TAXI row. -/
theorem c5_counterexample :
    ¬ ((apply_search_text dsAB "taxi").out.rows
        = dsAB.rows.filter (fun r => specTextMatch r "taxi")) := by
  decide

/-- C5 (amended): when a free-text query is present (and the frame
non-empty), `apply_search_text` does not substring-search the record
fields; it extracts at most one borough, one year and one injury
category from the query and conjoins, after the facet predicates,
an equality predicate on each extracted value whose column is
present. -/
theorem c5_amended :
    ∀ (d : Dataset) (text : String), ¬(text = "" ∨ d.rows = []) → ∀ r : Row,
      (r ∈ (apply_search_text d text).out.rows ↔
        (r ∈ d.rows
         ∧ (∀ b, boroughFromText text = some b → Col.borough ∈ d.cols →
              r.get .borough = some (.str b))
         ∧ (∀ y, yearFromText text = some y → Col.year ∈ d.cols →
              r.get .year = some (.int y))
         ∧ (∀ i, injuryFromText text = some i → Col.injuryType ∈ d.cols →
              r.get .injuryType = some (.str i)))) := by
  intro d text h r
  unfold apply_search_text
  rw [if_neg h]
  dsimp only
  rcases hb : boroughFromText text with _ | bv <;>
  rcases hy : yearFromText text with _ | yv <;>
  rcases hi : injuryFromText text with _ | iv <;>
  by_cases hB : Col.borough ∈ d.cols <;>
  by_cases hY : Col.year ∈ d.cols <;>
  by_cases hI : Col.injuryType ∈ d.cols <;>
  simp [hB, hY, hI, List.mem_filter, beq_iff_eq] <;>
  tauto

/-- Witness for `c5_amended` on the query "brooklyn pedestrian" over
`dsAB` at the Brooklyn pedestrian row. -/
theorem c5_witness :
    ¬("brooklyn pedestrian" = "" ∨ dsAB.rows = [])
    ∧ (rowB ∈ (apply_search_text dsAB "brooklyn pedestrian").out.rows ↔
        (rowB ∈ dsAB.rows
         ∧ (∀ b, boroughFromText "brooklyn pedestrian" = some b →
              Col.borough ∈ dsAB.cols → rowB.get .borough = some (.str b))
         ∧ (∀ y, yearFromText "brooklyn pedestrian" = some y →
              Col.year ∈ dsAB.cols → rowB.get .year = some (.int y))
         ∧ (∀ i, injuryFromText "brooklyn pedestrian" = some i →
              Col.injuryType ∈ dsAB.cols → rowB.get .injuryType = some (.str i)))) :=
  ⟨by decide, c5_amended dsAB "brooklyn pedestrian" (by decide) rowB⟩

/-- Two datasets with the same columns and rows are equal. -/
theorem Dataset.ext (a b : Dataset) (h1 : a.cols = b.cols) (h2 : a.rows = b.rows) :
    a = b := by
  cases a; cases b; simp_all

/-- A facet filter never changes the set of columns. -/
theorem cols_applyFacet (d : Dataset) (c : Col) (v : List Val) :
    (applyFacet d c v).cols = d.cols := by
  unfold applyFacet; split <;> rfl

/-- Rows of a facet filter, with the guard made explicit. -/
theorem rows_applyFacet (d : Dataset) (c : Col) (v : List Val) :
    (applyFacet d c v).rows =
      if v ≠ [] ∧ c ∈ d.cols then d.rows.filter (facetPred c v) else d.rows := by
  unfold applyFacet; split <;> simp_all

/-- Membership in a facet-filtered dataset. -/
theorem mem_applyFacet {r : Row} {d : Dataset} {c : Col} {v : List Val} :
    r ∈ (applyFacet d c v).rows ↔
      (r ∈ d.rows ∧ ((v ≠ [] ∧ c ∈ d.cols) → facetPred c v r = true)) := by
  rw [rows_applyFacet]
  split
  · rename_i hg; simp [List.mem_filter, hg]
  · rename_i hg; simp [hg]

/-- Facet filters applied to the same dataset commute. -/
theorem applyFacet_comm (d : Dataset) (c₁ c₂ : Col) (v₁ v₂ : List Val) :
    applyFacet (applyFacet d c₁ v₁) c₂ v₂ = applyFacet (applyFacet d c₂ v₂) c₁ v₁ := by
  apply Dataset.ext
  · rw [cols_applyFacet, cols_applyFacet, cols_applyFacet, cols_applyFacet]
  · rw [rows_applyFacet, rows_applyFacet, rows_applyFacet, rows_applyFacet,
      cols_applyFacet, cols_applyFacet]
    by_cases h1 : v₁ ≠ [] ∧ c₁ ∈ d.cols <;>
    by_cases h2 : v₂ ≠ [] ∧ c₂ ∈ d.cols <;>
    simp [h1, h2, List.filter_filter]
    exact List.filter_congr (fun x _ => Bool.and_comm _ _)

/-- C6: facet filtering is a pure conjunction — a record survives the
combined five-facet filter exactly when it survives each single-facet
filter (the intersection property), and any two facet filters commute,
so every sequential order of single-facet applications yields the same
result. -/
theorem c6_thm :
    (∀ (d : Dataset) (crit : Criteria) (r : Row),
       r ∈ (update_filters d crit).rows ↔
         (r ∈ (applyFacet d .borough crit.boroughs).rows
          ∧ r ∈ (applyFacet d .year crit.years).rows
          ∧ r ∈ (applyFacet d .vehicleCategory crit.vehicles).rows
          ∧ r ∈ (applyFacet d .contributingFactor crit.factors).rows
          ∧ r ∈ (applyFacet d .injuryType crit.injuries).rows))
    ∧ (∀ (d : Dataset) (c₁ c₂ : Col) (v₁ v₂ : List Val),
       applyFacet (applyFacet d c₁ v₁) c₂ v₂ = applyFacet (applyFacet d c₂ v₂) c₁ v₁) := by
  refine ⟨?_, applyFacet_comm⟩
  intro d crit r
  simp only [update_filters, mem_applyFacet, cols_applyFacet]
  tauto

/-- A facet filter whose column is absent from the frame is skipped. -/
theorem applyFacet_skip {d : Dataset} {c : Col} (h : c ∉ d.cols) (v : List Val) :
    applyFacet d c v = d := by
  unfold applyFacet
  rw [if_neg (by tauto)]

/-- A facet filter with an empty selection is skipped. -/
theorem applyFacet_nil {d : Dataset} {c : Col} : applyFacet d c [] = d := by
  unfold applyFacet
  rw [if_neg (by simp)]

/-- C7: the claim states that for every dataset missing a predicate's
column the Filter Composer skips the predicate and never raises; the
cited `filtered_df` block of src/app2.py has no column guards, so on a
dataset without the YEAR column its unconditional year selection
raises a KeyError (modelled `none`) instead of skipping, even with no
other selection active. -/
theorem c7_counterexample :
    Col.year ∉ dsNoYear.cols
    ∧ filtered_df2 dsNoYear "All" 2020 [] [] = none := by
  exact ⟨by decide, by decide⟩

/-- C7 (amended): in src/app.py a predicate whose column is absent is
skipped entirely and no error is raised — the single facet filter is
the identity, the five-facet pipeline behaves exactly as if that facet
had not been selected (remaining predicates still applied), and
`apply_search_text` with all three of its columns absent leaves the
rows untouched; but in the `filtered_df` block of src/app2.py, which
has no column guards, a missing YEAR column makes the filter raise
(modelled `none`) rather than skip. -/
theorem c7_amended :
    (∀ (d : Dataset) (c : Col) (v : List Val) (crit : Criteria), c ∉ d.cols →
       applyFacet d c v = d
       ∧ update_filters d crit = update_filters d (clearFacet crit c))
    ∧ (∀ (d : Dataset) (text : String),
         Col.borough ∉ d.cols → Col.year ∉ d.cols → Col.injuryType ∉ d.cols →
         (apply_search_text d text).out.rows = d.rows)
    ∧ (∀ (d : Dataset) (sel_borough : String) (sel_year : Int)
         (sel_vehicle sel_factor : List Val), Col.year ∉ d.cols →
         filtered_df2 d sel_borough sel_year sel_vehicle sel_factor = none) := by
  refine ⟨?_, ?_, ?_⟩
  · intro d c v crit h
    refine ⟨applyFacet_skip h v, ?_⟩
    cases c with
    | borough =>
      simp [update_filters, clearFacet, applyFacet_skip h, applyFacet_nil]
    | year =>
      have e1 : applyFacet (applyFacet d .borough crit.boroughs) .year crit.years
          = applyFacet d .borough crit.boroughs :=
        applyFacet_skip (by rw [cols_applyFacet]; exact h) _
      have e2 : applyFacet (applyFacet d .borough crit.boroughs) .year ([] : List Val)
          = applyFacet d .borough crit.boroughs := applyFacet_nil
      simp [update_filters, clearFacet, e1, e2]
    | vehicleTypeCode => simp [clearFacet]
    | vehicleCategory =>
      have e1 : applyFacet (applyFacet (applyFacet d .borough crit.boroughs) .year crit.years)
            .vehicleCategory crit.vehicles
          = applyFacet (applyFacet d .borough crit.boroughs) .year crit.years :=
        applyFacet_skip (by rw [cols_applyFacet, cols_applyFacet]; exact h) _
      have e2 : applyFacet (applyFacet (applyFacet d .borough crit.boroughs) .year crit.years)
            .vehicleCategory ([] : List Val)
          = applyFacet (applyFacet d .borough crit.boroughs) .year crit.years := applyFacet_nil
      simp [update_filters, clearFacet, e1, e2]
    | contributingFactor =>
      have e1 : applyFacet (applyFacet (applyFacet (applyFacet d .borough crit.boroughs)
            .year crit.years) .vehicleCategory crit.vehicles)
            .contributingFactor crit.factors
          = applyFacet (applyFacet (applyFacet d .borough crit.boroughs) .year crit.years)
              .vehicleCategory crit.vehicles :=
        applyFacet_skip (by rw [cols_applyFacet, cols_applyFacet, cols_applyFacet]; exact h) _
      have e2 : applyFacet (applyFacet (applyFacet (applyFacet d .borough crit.boroughs)
            .year crit.years) .vehicleCategory crit.vehicles)
            .contributingFactor ([] : List Val)
          = applyFacet (applyFacet (applyFacet d .borough crit.boroughs) .year crit.years)
              .vehicleCategory crit.vehicles := applyFacet_nil
      simp [update_filters, clearFacet, e1, e2]
    | injuryType =>
      have e1 : applyFacet (applyFacet (applyFacet (applyFacet (applyFacet d .borough
            crit.boroughs) .year crit.years) .vehicleCategory crit.vehicles)
            .contributingFactor crit.factors) .injuryType crit.injuries
          = applyFacet (applyFacet (applyFacet (applyFacet d .borough crit.boroughs)
              .year crit.years) .vehicleCategory crit.vehicles)
              .contributingFactor crit.factors :=
        applyFacet_skip
          (by rw [cols_applyFacet, cols_applyFacet, cols_applyFacet, cols_applyFacet]; exact h) _
      have e2 : applyFacet (applyFacet (applyFacet (applyFacet (applyFacet d .borough
            crit.boroughs) .year crit.years) .vehicleCategory crit.vehicles)
            .contributingFactor crit.factors) .injuryType ([] : List Val)
          = applyFacet (applyFacet (applyFacet (applyFacet d .borough crit.boroughs)
              .year crit.years) .vehicleCategory crit.vehicles)
              .contributingFactor crit.factors := applyFacet_nil
      simp [update_filters, clearFacet, e1, e2]
    | latitude => simp [clearFacet]
    | longitude => simp [clearFacet]
  · intro d text hB hY hI
    unfold apply_search_text
    split
    · rfl
    · dsimp only
      rcases boroughFromText text with _ | bv <;>
      rcases yearFromText text with _ | yv <;>
      rcases injuryFromText text with _ | iv <;>
      simp [hB, hY, hI]
  · intro d sel_borough sel_year sel_vehicle sel_factor h
    by_cases hsb : sel_borough = "All" <;>
    by_cases hbc : Col.borough ∈ d.cols <;>
    simp [filtered_df2, colFilter, hsb, hbc, h]

/-- Witness for `c7_amended`: over `dsNoYear` (which lacks the YEAR
column) a year facet of 2020 is skipped by src/app.py's pipeline, which
matches the year-cleared criteria, while src/app2.py's `filtered_df`
raises. -/
theorem c7_witness :
    Col.year ∉ dsNoYear.cols
    ∧ (applyFacet dsNoYear .year [Val.int 2020] = dsNoYear
       ∧ update_filters dsNoYear ⟨[Val.str "QUEENS"], [Val.int 2020], [], [], []⟩
           = update_filters dsNoYear
               (clearFacet ⟨[Val.str "QUEENS"], [Val.int 2020], [], [], []⟩ .year))
    ∧ filtered_df2 dsNoYear "QUEENS" 2019 [] [] = none :=
  ⟨by decide,
   c7_amended.1 dsNoYear .year [Val.int 2020]
     ⟨[Val.str "QUEENS"], [Val.int 2020], [], [], []⟩ (by decide),
   c7_amended.2.2 dsNoYear "QUEENS" 2019 [] [] (by decide)⟩

/-- C9: with no facet selections and an empty search text, the
filtering pipeline returns the dataset unchanged. -/
theorem c9_thm :
    ∀ d : Dataset, d.rows ≠ [] → update_report_filter d noCriteria "" = d := by
  intro d _
  simp [update_report_filter, update_filters, noCriteria, applyFacet_nil,
    apply_search_text]

/-- Witness for `c9_thm` on the non-empty fixture dataset. -/
theorem c9_witness :
    dsAB.rows ≠ [] ∧ update_report_filter dsAB noCriteria "" = dsAB :=
  ⟨by decide, c9_thm dsAB (by decide)⟩

/-- Rows of a facet-filtered dataset form a sublist of the input rows. -/
theorem applyFacet_rows_sublist (d : Dataset) (c : Col) (v : List Val) :
    (applyFacet d c v).rows.Sublist d.rows := by
  rw [rows_applyFacet]
  split
  · exact List.filter_sublist _
  · exact List.Sublist.refl _

/-- The search-text step never changes the set of columns. -/
theorem cols_apply_search_text (d : Dataset) (text : String) :
    (apply_search_text d text).out.cols = d.cols := by
  unfold apply_search_text
  split <;> rfl

/-- Rows surviving the search-text step form a sublist of the input
rows. -/
theorem apply_search_text_rows_sublist (d : Dataset) (text : String) :
    (apply_search_text d text).out.rows.Sublist d.rows := by
  unfold apply_search_text
  split
  · exact List.Sublist.refl _
  · dsimp only
    rcases boroughFromText text with _ | bv <;>
    rcases yearFromText text with _ | yv <;>
    rcases injuryFromText text with _ | iv <;>
    dsimp only
    all_goals repeat' split
    all_goals
      repeat
        first
        | exact List.Sublist.refl _
        | exact List.filter_sublist _
        | refine (List.filter_sublist _).trans ?_

/-- C10: the filtering pipeline only removes rows — its output rows are
a sublist of the input rows (so every surviving record is a record of
the input with all field values unchanged) and the column set is
untouched; the input dataset itself is a value the pipeline never
mutates. -/
theorem c10_thm :
    ∀ (d : Dataset) (crit : Criteria) (text : String),
      (update_report_filter d crit text).rows.Sublist d.rows
      ∧ (update_report_filter d crit text).cols = d.cols := by
  intro d crit text
  constructor
  · refine (apply_search_text_rows_sublist _ _).trans ?_
    simp only [update_filters]
    exact ((((applyFacet_rows_sublist _ _ _).trans
      (applyFacet_rows_sublist _ _ _)).trans
      (applyFacet_rows_sublist _ _ _)).trans
      (applyFacet_rows_sublist _ _ _)).trans
      (applyFacet_rows_sublist _ _ _)
  · rw [update_report_filter, cols_apply_search_text]
    simp [update_filters, cols_applyFacet]

/-- Length of a seeded sample: the requested size, capped by the input
length. -/
theorem seededSample_length {α : Type} (seed n : Nat) (l : List α) :
    (seededSample seed n l).length = min n l.length := by
  induction n generalizing seed l with
  | zero => simp [seededSample]
  | succ n ih =>
    cases l with
    | nil => simp [seededSample]
    | cons a t =>
      have hi : lcg seed % (t.length + 1) < t.length + 1 :=
        Nat.mod_lt _ (Nat.succ_pos _)
      simp only [seededSample, List.length_cons, ih, List.length_eraseIdx]
      rw [if_pos hi]
      omega

/-- Every element of a seeded sample comes from the input list. -/
theorem seededSample_subset {α : Type} (seed n : Nat) (l : List α) :
    seededSample seed n l ⊆ l := by
  induction n generalizing seed l with
  | zero => simp [seededSample]
  | succ n ih =>
    cases l with
    | nil => simp [seededSample]
    | cons a t =>
      intro x hx
      simp only [seededSample, List.mem_cons] at hx
      rcases hx with h | h
      · exact h ▸ List.get_mem _ _ _
      · exact (List.eraseIdx_sublist _ _).subset (ih _ _ h)

/-- C8: the location sample is deterministic — equal filtered inputs
give equal samples — and whenever `create_map_sample` produces a
sample, its size is exactly min(5000, number of rows with both
coordinates present) and every sampled record is a record of the input
with both latitude and longitude present. -/
theorem c8_thm :
    (∀ (d : Dataset) (sample : List Row), create_map_sample d = some sample →
       sample.length
         = min 5000 ((d.rows.filter
             (fun r => (r.get .latitude).isSome && (r.get .longitude).isSome)).length)
       ∧ ∀ r ∈ sample,
           r ∈ d.rows ∧ (r.get .latitude).isSome = true
             ∧ (r.get .longitude).isSome = true)
    ∧ (∀ d₁ d₂ : Dataset, d₁ = d₂ → create_map_sample d₁ = create_map_sample d₂) := by
  constructor
  · intro d sample h
    unfold create_map_sample at h
    split at h
    · exact absurd h (by simp)
    · dsimp only at h
      split at h
      · exact absurd h (by simp)
      · injection h with h
        subst h
        constructor
        · rw [pandasSample, seededSample_length]
          omega
        · intro r hr
          have hmem := seededSample_subset _ _ _ hr
          rw [List.mem_filter] at hmem
          refine ⟨hmem.1, ?_, ?_⟩ <;> simp_all
  · intro d₁ d₂ h
    rw [h]

/-- Witness for `c8_thm`: over `dsAB` only the row with coordinates is
sampled, with size min(5000, 1) = 1; and determinism applied at
`dsAB`. -/
theorem c8_witness :
    create_map_sample dsAB = some [rowA]
    ∧ ([rowA].length
         = min 5000 ((dsAB.rows.filter
             (fun r => (r.get .latitude).isSome && (r.get .longitude).isSome)).length)
       ∧ ∀ r ∈ [rowA],
           r ∈ dsAB.rows ∧ (r.get .latitude).isSome = true
             ∧ (r.get .longitude).isSome = true) :=
  ⟨by decide, c8_thm.1 dsAB [rowA] (by decide)⟩

end CollisionDash
